import Mathlib

/-!
# Verification of the login endpoint

A shallow embedding of the login flow of the repository:

* `AuthValidation.validateLoginCredentials` and `AuthValidation.sanitizeCredentials`
  (src/lib/validation/authValidation.ts),
* `AuthService.authenticateUser` (src/lib/services/authService.ts),
* `ResponseUtils` (src/lib/utils/responseUtils.ts),
* the `POST` route handler (src/app/api/login/route.ts).

JavaScript runtime values that can flow through `validateLoginCredentials`
(whose parameter is typed `any`) are modelled by the inductive `JSValue`.
Numbers are modelled as integers: no claim depends on non-integral or NaN
number inputs, and every number literal the code handles is integral.
`String.prototype.toLowerCase` is modelled on its ASCII fragment
(`asciiLower`); the fixed reference credentials are ASCII.
-/

namespace Login

/-- A JavaScript runtime value, as far as the login flow can observe it:
`undefined`, `null`, booleans, (integral) numbers, strings, and plain objects
given as a field list (later entries shadow earlier ones, as in object
literals and `JSON.parse`). -/
inductive JSValue where
  | undefined : JSValue
  | null : JSValue
  | bool : Bool → JSValue
  | num : Int → JSValue
  | str : String → JSValue
  | obj : List (String × JSValue) → JSValue
deriving Repr

/-- JavaScript falsiness: `undefined`, `null`, `false`, `0` and `""` are
falsy; every object is truthy. -/
def jsFalsy : JSValue → Bool
  | .undefined => true
  | .null => true
  | .bool b => !b
  | .num n => n == 0
  | .str s => s == ""
  | .obj _ => false

/-- Whether `typeof v` is the string `object`: true exactly for `null` and
objects. -/
def typeofObject : JSValue → Bool
  | .null => true
  | .obj _ => true
  | _ => false

/-- Property lookup on the field list of an object; an absent key reads as
`undefined`, and a repeated key takes its last occurrence. -/
def getField (fields : List (String × JSValue)) (k : String) : JSValue :=
  fields.foldl (fun acc kv => if kv.1 == k then kv.2 else acc) JSValue.undefined

/-- Whether the field list binds the key at all. -/
def hasField (fields : List (String × JSValue)) (k : String) : Bool :=
  fields.any (fun kv => kv.1 == k)

/-- The ECMAScript `\s` character class (WhiteSpace and LineTerminator),
by code point: tab, LF, VT, FF, CR, space, NBSP, the Unicode space
separators, the line and paragraph separators, and the BOM. -/
def isJsWhitespace (c : Char) : Bool :=
  (0x9 ≤ c.toNat && c.toNat ≤ 0xd) || c.toNat == 0x20 ||
  c.toNat == 0xa0 || c.toNat == 0x1680 ||
  (0x2000 ≤ c.toNat && c.toNat ≤ 0x200a) ||
  c.toNat == 0x2028 || c.toNat == 0x2029 || c.toNat == 0x202f ||
  c.toNat == 0x205f || c.toNat == 0x3000 || c.toNat == 0xfeff

/-- ASCII lowercasing of one character (the fragment of
`String.prototype.toLowerCase` exercised by the login flow). -/
def asciiLower (c : Char) : Char :=
  if h : 65 ≤ c.toNat ∧ c.toNat ≤ 90 then
    Char.ofNatAux (c.toNat + 32) (Or.inl (by omega))
  else c

/-- `String.prototype.toLowerCase` on its ASCII fragment. -/
def jsToLower (s : String) : String :=
  ⟨s.data.map asciiLower⟩

/-- `String.prototype.trim`: strip `\s` characters from both ends. -/
def jsTrim (s : String) : String :=
  ⟨List.dropWhile isJsWhitespace (List.rdropWhile isJsWhitespace s.data)⟩

/-- The UTF-16 length of a string, which is what `.length` returns on a
JavaScript string (code units, not code points). -/
def utf16Len (s : String) : Nat :=
  s.data.foldl (fun n c => n + (if c.toNat < 0x10000 then 1 else 2)) 0

/-- The ECMAScript `ToString` coercion on the modelled values (a plain
object stringifies via `Object.prototype.toString`). -/
def jsToString : JSValue → String
  | .undefined => "undefined"
  | .null => "null"
  | .bool b => if b then "true" else "false"
  | .num n => toString n
  | .str s => s
  | .obj _ => "[object Object]"

/-- The ECMAScript `ToNumber` coercion on the modelled values, with `none`
standing for NaN. The primitive form of a plain object, `"[object Object]"`,
is not
numeric, and a string is read as an (optionally signed) integer after
trimming; the empty string reads as `0`. -/
def toNumber : JSValue → Option Int
  | .undefined => none
  | .null => some 0
  | .bool b => some (if b then 1 else 0)
  | .num n => some n
  | .str s => if (jsTrim s) == "" then some 0 else (jsTrim s).toInt?
  | .obj _ => none

/-- The value of `v.length`: the UTF-16 length for a string, the `length`
field for an object, and `undefined` for every other value reachable here
(numbers and booleans have no own `length` property). -/
def lengthProp : JSValue → JSValue
  | .str s => .num (utf16Len s)
  | .obj fields => getField fields "length"
  | _ => .undefined

/-- The comparison `v < m` against a number literal: `ToNumber` on `v`, with
any comparison involving NaN evaluating to false. -/
def jsLtNum (v : JSValue) (m : Int) : Bool :=
  match toNumber v with
  | none => false
  | some k => decide (k < m)

/-- A character admitted by the `[^\s@]` class of the email pattern. -/
def emailAtomChar (c : Char) : Bool :=
  !isJsWhitespace c && c != '@'

/-- Split a character list at its first `'@'`, when one exists. -/
def splitAtFirstAt : List Char → Option (List Char × List Char)
  | [] => none
  | c :: cs =>
    if c == '@' then some ([], cs)
    else
      match splitAtFirstAt cs with
      | none => none
      | some (l, r) => some (c :: l, r)

/-- `EMAIL_REGEX.test`: whether the whole string matches
`/^[^\s@]+@[^\s@]+\.[^\s@]+$/`. The leading class excludes the at sign, so
the literal at sign of the pattern must match the first at sign of the
string; the part after it must consist of `[^\s@]` characters and contain a
dot that is neither its first nor its last character. -/
def emailRegexTest (s : String) : Bool :=
  match splitAtFirstAt s.data with
  | none => false
  | some (localPart, rest) =>
    !localPart.isEmpty && localPart.all emailAtomChar &&
    !rest.isEmpty && rest.all emailAtomChar &&
    ((rest.drop 1).dropLast.contains '.')

/-- One validation error: which field failed and a message
(src/lib/validation/authValidation.ts, `interface ValidationError`). -/
structure ValidationError where
  field : String
  message : String
deriving Repr, DecidableEq

/-- The sanitized credential record. The TypeScript interface
`LoginCredentials` declares both fields as strings; at runtime
`sanitizeCredentials` always produces a string email, but passes a truthy
non-string `password` through unchanged, so the password field is modelled
as a `JSValue`. -/
structure SanitizedCredentials where
  email : String
  password : JSValue
deriving Repr

/-- The object literal `sanitizeCredentials` builds, viewed again as a
JavaScript value. -/
def SanitizedCredentials.toJS (c : SanitizedCredentials) : JSValue :=
  .obj [("email", .str c.email), ("password", c.password)]

namespace AuthValidation

/-- `AuthValidation.MIN_PASSWORD_LENGTH`. -/
def MIN_PASSWORD_LENGTH : Nat := 6

/-- The email checks of `validateLoginCredentials`: `if (!email)` then
required, `else if (!EMAIL_REGEX.test(email))` then invalid format. -/
def emailErrorsOf (email : JSValue) : List ValidationError :=
  if jsFalsy email then
    [{ field := "email", message := "Email is required." }]
  else if !emailRegexTest (jsToString email) then
    [{ field := "email", message := "Invalid email format." }]
  else []

/-- The password checks of `validateLoginCredentials`: `if (!password)` then
required, `else if (password.length < MIN_PASSWORD_LENGTH)` then too
short. -/
def passwordErrorsOf (password : JSValue) : List ValidationError :=
  if jsFalsy password then
    [{ field := "password", message := "Password is required." }]
  else if jsLtNum (lengthProp password) (Int.ofNat MIN_PASSWORD_LENGTH) then
    [{ field := "password",
       message := "Password must be at least " ++ toString MIN_PASSWORD_LENGTH ++ " characters." }]
  else []

/-- `AuthValidation.validateLoginCredentials`: a guard for non-object input,
then independent email and password checks, collecting every applicable
error in order (email errors first, as pushed by the code). -/
def validateLoginCredentials (credentials : JSValue) : List ValidationError :=
  if jsFalsy credentials || !typeofObject credentials then
    [{ field := "general", message := "Invalid request body." }]
  else
    let fields := match credentials with
      | .obj fields => fields
      | _ => []
    emailErrorsOf (getField fields "email") ++ passwordErrorsOf (getField fields "password")

/-- `AuthValidation.sanitizeCredentials`: the email becomes its trimmed,
lowercased form, coalesced with the empty string when absent; the password
is coalesced with the empty string when falsy and kept as is otherwise.
`none` models a thrown `TypeError`: reading a property off `null` or
`undefined`, or calling `.trim()` on a truthy non-string email. (Coalescing
the email result changes nothing: when the trimmed string is empty the
coalesced value is the empty string again.) -/
def sanitizeCredentials (credentials : JSValue) : Option SanitizedCredentials :=
  match credentials with
  | .undefined => none
  | .null => none
  | _ =>
    let fields := match credentials with
      | .obj fields => fields
      | _ => []
    let rawEmail := getField fields "email"
    let rawPassword := getField fields "password"
    match rawEmail with
    | .undefined => some { email := "", password := if jsFalsy rawPassword then .str "" else rawPassword }
    | .null => some { email := "", password := if jsFalsy rawPassword then .str "" else rawPassword }
    | .str s => some
        { email := jsToLower (jsTrim s),
          password := if jsFalsy rawPassword then .str "" else rawPassword }
    | _ => none

end AuthValidation

/-- The synthetic user record returned on a successful login. -/
structure AuthUser where
  email : String
  id : String
  role : String
deriving Repr, DecidableEq

/-- The `data` payload of a successful `AuthResult`: `{ user: {...} }`. -/
structure AuthData where
  user : AuthUser
deriving Repr, DecidableEq

/-- `interface AuthResult` (src/lib/services/authService.ts); the optional
`data` field becomes an `Option`. -/
structure AuthResult where
  success : Bool
  message : String
  statusCode : Nat
  data : Option AuthData
deriving Repr, DecidableEq

namespace AuthService

/-- `AuthService.VALID_CREDENTIALS.email`. -/
def VALID_EMAIL : String := "test@example.com"

/-- `AuthService.VALID_CREDENTIALS.password`. -/
def VALID_PASSWORD : String := "password123"

/-- The statically-typed core of `AuthService.authenticateUser` (both
credential fields strings, as the `LoginCredentials` interface declares).
The simulated database delay has no effect on the result and is not
modelled; the outcome is the pure comparison against `VALID_CREDENTIALS`. -/
def authenticateUser (email password : String) : AuthResult :=
  if email == VALID_EMAIL && password == VALID_PASSWORD then
    { success := true
      message := "Login successful!"
      statusCode := 200
      data := some { user := { email := email, id := "user-123", role := "user" } } }
  else
    { success := false
      message := "Invalid credentials."
      statusCode := 401
      data := none }

/-- `AuthService.authenticateUser` as invoked at runtime, where the
sanitized password may be a non-string value: strict equality (`===`)
between a string constant and a non-string is false. -/
def authenticateUserDyn (credentials : SanitizedCredentials) : AuthResult :=
  match credentials.password with
  | .str p => authenticateUser credentials.email p
  | _ =>
    { success := false
      message := "Invalid credentials."
      statusCode := 401
      data := none }

/-- `authenticateUser` with its `await simulateDatabaseDelay()` step made
visible: the extra argument models the instant at which the timer resolves.
The comparison runs only after the wait and uses nothing but the
credentials, so the argument cannot influence the result. -/
def authenticateUserAt (credentials : SanitizedCredentials) (_resolveTimeMs : Nat) : AuthResult :=
  authenticateUserDyn credentials

end AuthService

/-- The JSON body of a response: the uniform envelope
`{ success, message, errors?, data? }`. -/
structure ResponseBody where
  success : Bool
  message : String
  errors : Option (List ValidationError)
  data : Option AuthData
deriving Repr, DecidableEq

/-- A `NextResponse.json(body, { status })` value: HTTP status plus JSON
body. -/
structure JsonResponse where
  status : Nat
  body : ResponseBody
deriving Repr, DecidableEq

namespace ResponseUtils

/-- `ResponseUtils.createValidationErrorResponse`. -/
def createValidationErrorResponse (errors : List ValidationError) : JsonResponse :=
  { status := 400
    body := { success := false, message := "Validation failed", errors := some errors, data := none } }

/-- `ResponseUtils.createAuthResponse`: the spread
`...(authResult.data && { data: authResult.data })` includes `data` exactly
when the auth result carries it. -/
def createAuthResponse (authResult : AuthResult) : JsonResponse :=
  { status := authResult.statusCode
    body := { success := authResult.success
              message := authResult.message
              errors := none
              data := authResult.data } }

/-- `ResponseUtils.createServerErrorResponse`. -/
def createServerErrorResponse : JsonResponse :=
  { status := 500
    body := { success := false, message := "Internal server error", errors := none, data := none } }

end ResponseUtils

/-- The `POST` handler of src/app/api/login/route.ts. The argument models
the outcome of `await request.json()`: `none` when parsing throws. Any
exception from the body — parsing, validation, sanitization or
authentication — lands in the `catch` branch and produces the 500
response. -/
def POST (parsedBody : Option JSValue) : JsonResponse :=
  match parsedBody with
  | none => ResponseUtils.createServerErrorResponse
  | some body =>
    let validationErrors := AuthValidation.validateLoginCredentials body
    if validationErrors.length > 0 then
      ResponseUtils.createValidationErrorResponse validationErrors
    else
      match AuthValidation.sanitizeCredentials body with
      | none => ResponseUtils.createServerErrorResponse
      | some sanitized => ResponseUtils.createAuthResponse (AuthService.authenticateUserDyn sanitized)

/-! ## Supporting lemmas -/

/-- Reading a key that the field list does not bind yields `undefined`. -/
theorem getField_of_not_hasField (fields : List (String × JSValue)) (k : String)
    (h : hasField fields k = false) : getField fields k = .undefined := by
  unfold getField hasField at *
  induction fields with
  | nil => rfl
  | cons kv rest ih =>
    simp only [List.any_cons, Bool.or_eq_false_iff] at h
    simp only [List.foldl_cons, h.1, if_neg]
    exact ih h.2

/-- On an object input, validation runs both field checks and concatenates
their errors, email first. -/
theorem validateLoginCredentials_obj (fields : List (String × JSValue)) :
    AuthValidation.validateLoginCredentials (.obj fields) =
      AuthValidation.emailErrorsOf (getField fields "email") ++
      AuthValidation.passwordErrorsOf (getField fields "password") := rfl

/-- Every email-check error is on the `"email"` field. -/
theorem emailErrorsOf_field (email : JSValue) :
    ∀ e ∈ AuthValidation.emailErrorsOf email, e.field = "email" := by
  unfold AuthValidation.emailErrorsOf
  split
  · simp
  · split <;> simp

/-- Every password-check error is on the `"password"` field. -/
theorem passwordErrorsOf_field (password : JSValue) :
    ∀ e ∈ AuthValidation.passwordErrorsOf password, e.field = "password" := by
  unfold AuthValidation.passwordErrorsOf
  split
  · simp
  · split <;> simp

/-- Lowercasing an upper-case ASCII letter adds 32 to its code point. -/
theorem asciiLower_toNat_of_upper (c : Char) (h : 65 ≤ c.toNat ∧ c.toNat ≤ 90) :
    (asciiLower c).toNat = c.toNat + 32 := by
  unfold asciiLower
  rw [dif_pos h]
  exact rfl

/-- Characters outside the upper-case ASCII range are fixed by
`asciiLower`. -/
theorem asciiLower_eq_of_not_upper (c : Char) (h : ¬(65 ≤ c.toNat ∧ c.toNat ≤ 90)) :
    asciiLower c = c := by
  unfold asciiLower
  rw [dif_neg h]

/-- `asciiLower` is idempotent: its image avoids the upper-case range. -/
theorem asciiLower_asciiLower (c : Char) : asciiLower (asciiLower c) = asciiLower c := by
  by_cases h : 65 ≤ c.toNat ∧ c.toNat ≤ 90
  · have h1 := asciiLower_toNat_of_upper c h
    exact asciiLower_eq_of_not_upper _ (by rw [h1]; omega)
  · simp only [asciiLower_eq_of_not_upper c h]

/-- Lowercasing does not change whether a character is `\s` whitespace:
both the upper-case and lower-case ASCII letters are outside the class. -/
theorem isJsWhitespace_asciiLower (c : Char) :
    isJsWhitespace (asciiLower c) = isJsWhitespace c := by
  by_cases h : 65 ≤ c.toNat ∧ c.toNat ≤ 90
  · have h1 := asciiLower_toNat_of_upper c h
    have e1 : isJsWhitespace (asciiLower c) = false := by
      simp only [isJsWhitespace, h1, Bool.or_eq_false_iff, Bool.and_eq_false_iff,
        beq_eq_false_iff_ne, ne_eq, decide_eq_false_iff_not, not_le]
      omega
    have e2 : isJsWhitespace c = false := by
      simp only [isJsWhitespace, Bool.or_eq_false_iff, Bool.and_eq_false_iff,
        beq_eq_false_iff_ne, ne_eq, decide_eq_false_iff_not, not_le]
      omega
    rw [e1, e2]
  · rw [asciiLower_eq_of_not_upper c h]

/-- `jsToLower` is idempotent. -/
theorem jsToLower_jsToLower (s : String) : jsToLower (jsToLower s) = jsToLower s := by
  unfold jsToLower
  show String.mk _ = String.mk _
  congr 1
  show List.map asciiLower (List.map asciiLower s.data) = List.map asciiLower s.data
  rw [List.map_map]
  exact List.map_congr_left fun a _ => asciiLower_asciiLower a

/-- `dropWhile` on whitespace commutes with per-character lowercasing. -/
theorem dropWhile_ws_map_asciiLower (l : List Char) :
    List.dropWhile isJsWhitespace (l.map asciiLower) =
      (List.dropWhile isJsWhitespace l).map asciiLower := by
  have hp : (isJsWhitespace ∘ asciiLower) = isJsWhitespace := funext isJsWhitespace_asciiLower
  rw [List.dropWhile_map, hp]

/-- `rdropWhile` on whitespace commutes with per-character lowercasing. -/
theorem rdropWhile_ws_map_asciiLower (l : List Char) :
    List.rdropWhile isJsWhitespace (l.map asciiLower) =
      (List.rdropWhile isJsWhitespace l).map asciiLower := by
  have hp : (isJsWhitespace ∘ asciiLower) = isJsWhitespace := funext isJsWhitespace_asciiLower
  unfold List.rdropWhile
  rw [← List.map_reverse, List.dropWhile_map, hp, List.map_reverse]

/-- The last entry of a list is the last entry of any of its non-empty
terminal segments. -/
theorem getLast?_eq_of_append (t l : List Char) (h : l ≠ []) :
    (t ++ l).getLast? = l.getLast? := by
  rw [List.getLast?_append]
  rw [List.getLast?_eq_getLast l h]
  rfl

/-- After stripping whitespace from the right and then from the left, the
right end is still clean: stripping it again changes nothing. -/
theorem rdropWhile_dropWhile_rdropWhile (l : List Char) :
    List.rdropWhile isJsWhitespace
        (List.dropWhile isJsWhitespace (List.rdropWhile isJsWhitespace l)) =
      List.dropWhile isJsWhitespace (List.rdropWhile isJsWhitespace l) := by
  set p := isJsWhitespace with hp
  set m := List.rdropWhile p l with hm
  rw [List.rdropWhile_eq_self_iff]
  intro hne
  have hm_ne : m ≠ [] := by
    intro h0
    rw [h0] at hne
    exact hne rfl
  obtain ⟨t, ht⟩ := List.dropWhile_suffix (l := m) p
  have hlq : m.getLast? = (List.dropWhile p m).getLast? := by
    conv_lhs => rw [← ht]
    exact getLast?_eq_of_append t _ hne
  have h1 : (List.dropWhile p m).getLast? = some ((List.dropWhile p m).getLast hne) :=
    List.getLast?_eq_getLast _ hne
  have h2 : m.getLast? = some (m.getLast hm_ne) := List.getLast?_eq_getLast _ hm_ne
  have heq : m.getLast hm_ne = (List.dropWhile p m).getLast hne := by
    have h3 := hlq
    rw [h1, h2] at h3
    exact Option.some.inj h3
  rw [← heq]
  exact List.rdropWhile_last_not p l hm_ne

/-- `jsTrim` is idempotent. -/
theorem jsTrim_jsTrim (s : String) : jsTrim (jsTrim s) = jsTrim s := by
  unfold jsTrim
  show String.mk _ = String.mk _
  congr 1
  show List.dropWhile isJsWhitespace (List.rdropWhile isJsWhitespace
      (List.dropWhile isJsWhitespace (List.rdropWhile isJsWhitespace s.data))) =
    List.dropWhile isJsWhitespace (List.rdropWhile isJsWhitespace s.data)
  rw [rdropWhile_dropWhile_rdropWhile, List.dropWhile_idempotent]

/-- Trimming commutes with ASCII lowercasing. -/
theorem jsTrim_jsToLower (s : String) : jsTrim (jsToLower s) = jsToLower (jsTrim s) := by
  unfold jsTrim jsToLower
  show String.mk _ = String.mk _
  congr 1
  show List.dropWhile isJsWhitespace (List.rdropWhile isJsWhitespace (s.data.map asciiLower)) =
    (List.dropWhile isJsWhitespace (List.rdropWhile isJsWhitespace s.data)).map asciiLower
  rw [rdropWhile_ws_map_asciiLower, dropWhile_ws_map_asciiLower]

/-- A trimmed-and-lowercased string is a fixed point of `jsTrim`. -/
theorem jsTrim_jsToLower_jsTrim (s : String) :
    jsTrim (jsToLower (jsTrim s)) = jsToLower (jsTrim s) := by
  rw [jsTrim_jsToLower, jsTrim_jsTrim]

/-- Shape of every record `sanitizeCredentials` can return: the email is
empty or a trimmed-lowercased string, and the password is the empty string
or a truthy value. -/
theorem sanitize_output_shape (v : JSValue) (r : SanitizedCredentials)
    (h : AuthValidation.sanitizeCredentials v = some r) :
    (r.email = "" ∨ ∃ s, r.email = jsToLower (jsTrim s)) ∧
    (r.password = .str "" ∨ jsFalsy r.password = false) := by
  rcases v with _ | _ | b | n | s | fields
  · exact absurd h (by simp [AuthValidation.sanitizeCredentials])
  · exact absurd h (by simp [AuthValidation.sanitizeCredentials])
  · have : r = ⟨"", .str ""⟩ := Option.some.inj h.symm
    subst this
    exact ⟨Or.inl rfl, Or.inl rfl⟩
  · have : r = ⟨"", .str ""⟩ := Option.some.inj h.symm
    subst this
    exact ⟨Or.inl rfl, Or.inl rfl⟩
  · have : r = ⟨"", .str ""⟩ := Option.some.inj h.symm
    subst this
    exact ⟨Or.inl rfl, Or.inl rfl⟩
  · unfold AuthValidation.sanitizeCredentials at h
    simp only at h
    rcases hre : getField fields "email" with _ | _ | b' | n' | s' | fs' <;> rw [hre] at h
    · have hr : r = ⟨"", if jsFalsy (getField fields "password") then .str "" else getField fields "password"⟩ :=
        Option.some.inj h.symm
      subst hr
      refine ⟨Or.inl rfl, ?_⟩
      by_cases hf : jsFalsy (getField fields "password") = true
      · rw [if_pos hf]
        exact Or.inl rfl
      · rw [if_neg hf]
        exact Or.inr (by simpa using hf)
    · have hr : r = ⟨"", if jsFalsy (getField fields "password") then .str "" else getField fields "password"⟩ :=
        Option.some.inj h.symm
      subst hr
      refine ⟨Or.inl rfl, ?_⟩
      by_cases hf : jsFalsy (getField fields "password") = true
      · rw [if_pos hf]
        exact Or.inl rfl
      · rw [if_neg hf]
        exact Or.inr (by simpa using hf)
    · cases h
    · cases h
    · have hr : r = ⟨jsToLower (jsTrim s'),
          if jsFalsy (getField fields "password") then .str "" else getField fields "password"⟩ :=
        Option.some.inj h.symm
      subst hr
      refine ⟨Or.inr ⟨s', rfl⟩, ?_⟩
      by_cases hf : jsFalsy (getField fields "password") = true
      · rw [if_pos hf]
        exact Or.inl rfl
      · rw [if_neg hf]
        exact Or.inr (by simpa using hf)
    · cases h

/-! ## Theorems -/

/-- Claim C5: on any object input that binds no `"email"` field, validation
reports the email-required error. -/
theorem claim_C5_missing_email (fields : List (String × JSValue))
    (h : hasField fields "email" = false) :
    { field := "email", message := "Email is required." } ∈
      AuthValidation.validateLoginCredentials (.obj fields) := by
  rw [validateLoginCredentials_obj, getField_of_not_hasField fields "email" h]
  have : AuthValidation.emailErrorsOf .undefined =
      [{ field := "email", message := "Email is required." }] := rfl
  rw [this]
  exact List.mem_append_left _ (List.mem_singleton_self _)

/-- Witness for C5 at the empty object. -/
theorem claim_C5_witness :
    { field := "email", message := "Email is required." } ∈
      AuthValidation.validateLoginCredentials (.obj []) :=
  claim_C5_missing_email [] rfl

/-- Claim C6: if the password field holds a string shorter than 6 UTF-16
code units, validation reports an error on the `"password"` field (the
required error for the empty string, the length error otherwise); a
password of length exactly 6 never receives the length error. -/
theorem claim_C6_password_length (fields : List (String × JSValue)) (s : String)
    (h : getField fields "password" = .str s) :
    (utf16Len s < 6 →
      ∃ e ∈ AuthValidation.validateLoginCredentials (.obj fields), e.field = "password") ∧
    (utf16Len s = 6 →
      { field := "password", message := "Password must be at least 6 characters." } ∉
        AuthValidation.validateLoginCredentials (.obj fields)) := by
  rw [validateLoginCredentials_obj, h]
  constructor
  · intro hlt
    have hmem : ∃ e ∈ AuthValidation.passwordErrorsOf (.str s), e.field = "password" := by
      by_cases hs : s = ""
      · subst hs
        have hred : AuthValidation.passwordErrorsOf (.str "") =
            [{ field := "password", message := "Password is required." }] := rfl
        rw [hred]
        exact ⟨_, List.mem_singleton_self _, rfl⟩
      · have hfalsy : jsFalsy (.str s) = false := by
          simp [jsFalsy, hs]
        have hlen : jsLtNum (lengthProp (.str s)) (Int.ofNat AuthValidation.MIN_PASSWORD_LENGTH) = true := by
          simp [jsLtNum, lengthProp, toNumber, AuthValidation.MIN_PASSWORD_LENGTH]
          omega
        unfold AuthValidation.passwordErrorsOf
        rw [if_neg (by simp [hfalsy]), if_pos hlen]
        exact ⟨_, List.mem_singleton_self _, rfl⟩
    obtain ⟨e, he, hf⟩ := hmem
    exact ⟨e, List.mem_append_right _ he, hf⟩
  · intro hlen hmem
    have hs : s ≠ "" := by
      intro hnil
      rw [hnil] at hlen
      simp [utf16Len] at hlen
    have hfalsy : jsFalsy (.str s) = false := by
      simp [jsFalsy, hs]
    have hnotlt : jsLtNum (lengthProp (.str s)) (Int.ofNat AuthValidation.MIN_PASSWORD_LENGTH) = false := by
      simp [jsLtNum, lengthProp, toNumber, AuthValidation.MIN_PASSWORD_LENGTH,
        decide_eq_false_iff_not]
      omega
    have hpw : AuthValidation.passwordErrorsOf (.str s) = [] := by
      unfold AuthValidation.passwordErrorsOf
      rw [if_neg (by simp [hfalsy]), if_neg (by rw [Bool.not_eq_true]; exact hnotlt)]
    rw [hpw, List.append_nil] at hmem
    have := emailErrorsOf_field (getField fields "email") _ hmem
    simp at this

/-- Witness for C6 at a 3-character password. -/
theorem claim_C6_witness :
    ∃ e ∈ AuthValidation.validateLoginCredentials
      (.obj [("email", .str "test@example.com"), ("password", .str "123")]),
      e.field = "password" :=
  (claim_C6_password_length
    [("email", .str "test@example.com"), ("password", .str "123")] "123" rfl).1 (by decide)

/-- Claim C1: `authenticateUser` yields the 200 "Login successful!" result
with a synthetic user record exactly on the fixed reference pair
(exact, case-sensitive comparison), and the 401 "Invalid credentials."
result without data on every other input. -/
theorem claim_C1_authenticateUser_fixed_pair (email password : String) :
    (email = AuthService.VALID_EMAIL ∧ password = AuthService.VALID_PASSWORD →
      AuthService.authenticateUser email password =
        { success := true
          message := "Login successful!"
          statusCode := 200
          data := some { user := { email := email, id := "user-123", role := "user" } } }) ∧
    (¬(email = AuthService.VALID_EMAIL ∧ password = AuthService.VALID_PASSWORD) →
      AuthService.authenticateUser email password =
        { success := false
          message := "Invalid credentials."
          statusCode := 401
          data := none }) := by
  constructor
  · rintro ⟨he, hp⟩
    simp [AuthService.authenticateUser, he, hp]
  · intro h
    have hb : (email == AuthService.VALID_EMAIL && password == AuthService.VALID_PASSWORD) = false := by
      rcases not_and_or.mp h with h1 | h1 <;> simp [h1]
    simp [AuthService.authenticateUser, hb]

/-- Witness for C1 at the reference pair and at a mismatching pair. -/
theorem claim_C1_witness :
    AuthService.authenticateUser "test@example.com" "password123" =
      { success := true
        message := "Login successful!"
        statusCode := 200
        data := some { user := { email := "test@example.com", id := "user-123", role := "user" } } } ∧
    AuthService.authenticateUser "test@example.com" "wrong" =
      { success := false
        message := "Invalid credentials."
        statusCode := 401
        data := none } :=
  ⟨(claim_C1_authenticateUser_fixed_pair "test@example.com" "password123").1 ⟨rfl, rfl⟩,
   (claim_C1_authenticateUser_fixed_pair "test@example.com" "wrong").2 (by decide)⟩

/-- Claim C2: end to end, the body
`{email:"test@example.com", password:"password123"}` produces HTTP 200 with
`success = true`. -/
theorem claim_C2_post_valid_credentials :
    (POST (some (.obj [("email", .str "test@example.com"),
                       ("password", .str "password123")]))).status = 200 ∧
    (POST (some (.obj [("email", .str "test@example.com"),
                       ("password", .str "password123")]))).body.success = true := by
  exact ⟨rfl, rfl⟩

/-- Claim C3: the responder maps a non-empty validation-error list to a 400
envelope carrying the errors, an `AuthResult` to an envelope with its own
status code (always 200 or 401 for authentication outcomes), success,
message and data, and a caught exception (here: body parsing throwing) to
the 500 "Internal server error" envelope. -/
theorem claim_C3_responder_mapping (errors : List ValidationError) (r : AuthResult)
    (c : SanitizedCredentials) (_hne : errors ≠ []) :
    ResponseUtils.createValidationErrorResponse errors =
      { status := 400
        body := { success := false, message := "Validation failed", errors := some errors, data := none } } ∧
    ResponseUtils.createAuthResponse r =
      { status := r.statusCode
        body := { success := r.success, message := r.message, errors := none, data := r.data } } ∧
    ((AuthService.authenticateUserDyn c).statusCode = 200 ∨
      (AuthService.authenticateUserDyn c).statusCode = 401) ∧
    POST none =
      { status := 500
        body := { success := false, message := "Internal server error", errors := none, data := none } } := by
  refine ⟨rfl, rfl, ?_, rfl⟩
  unfold AuthService.authenticateUserDyn AuthService.authenticateUser
  rcases c.password with _ | _ | b | n | p | fields <;> simp
  split <;> simp

/-- Witness for C3 at a one-element error list, a concrete auth result and
concrete sanitized credentials. -/
theorem claim_C3_witness :
    ResponseUtils.createValidationErrorResponse [{ field := "email", message := "Email is required." }] =
      { status := 400
        body := { success := false
                  message := "Validation failed"
                  errors := some [{ field := "email", message := "Email is required." }]
                  data := none } } ∧
    ResponseUtils.createAuthResponse { success := false, message := "Invalid credentials.", statusCode := 401, data := none } =
      { status := 401
        body := { success := false, message := "Invalid credentials.", errors := none, data := none } } ∧
    ((AuthService.authenticateUserDyn { email := "a", password := .str "b" }).statusCode = 200 ∨
      (AuthService.authenticateUserDyn { email := "a", password := .str "b" }).statusCode = 401) ∧
    POST none =
      { status := 500
        body := { success := false, message := "Internal server error", errors := none, data := none } } :=
  claim_C3_responder_mapping
    [{ field := "email", message := "Email is required." }]
    { success := false, message := "Invalid credentials.", statusCode := 401, data := none }
    { email := "a", password := .str "b" }
    (by decide)

/-- Claim C4: on inputs that are not truthy objects (undefined, null, or of
non-object type), validation returns exactly the single general error and
no email or password error. -/
theorem claim_C4_malformed_input_general_error (v : JSValue)
    (h : jsFalsy v = true ∨ typeofObject v = false) :
    AuthValidation.validateLoginCredentials v =
      [{ field := "general", message := "Invalid request body." }] ∧
    ∀ e ∈ AuthValidation.validateLoginCredentials v, e.field ≠ "email" ∧ e.field ≠ "password" := by
  have hcond : (jsFalsy v || !typeofObject v) = true := by
    rcases h with h | h <;> simp [h]
  have heq : AuthValidation.validateLoginCredentials v =
      [{ field := "general", message := "Invalid request body." }] := by
    unfold AuthValidation.validateLoginCredentials
    rw [if_pos hcond]
  refine ⟨heq, ?_⟩
  rw [heq]
  rintro e he
  simp only [List.mem_singleton] at he
  subst he
  exact ⟨by decide, by decide⟩

/-- Witness for C4 at `null`. -/
theorem claim_C4_witness :
    AuthValidation.validateLoginCredentials .null =
      [{ field := "general", message := "Invalid request body." }] ∧
    ∀ e ∈ AuthValidation.validateLoginCredentials .null, e.field ≠ "email" ∧ e.field ≠ "password" :=
  claim_C4_malformed_input_general_error .null (Or.inl rfl)

/-- Claim C7: end to end, the empty object body produces HTTP 400 whose
errors list is exactly the email-required and password-required errors. -/
theorem claim_C7_post_empty_object :
    POST (some (.obj [])) =
      { status := 400
        body := { success := false
                  message := "Validation failed"
                  errors := some [{ field := "email", message := "Email is required." },
                                  { field := "password", message := "Password is required." }]
                  data := none } } := by
  rfl

/-- Claim C8: `sanitizeCredentials` is idempotent on every input it accepts:
sanitizing its own output (viewed again as a request body) returns the very
same record — trimming and lowercasing twice equals doing it once, and the
password survives a second pass unchanged. -/
theorem claim_C8_sanitize_idempotent (v : JSValue) (r : SanitizedCredentials)
    (h : AuthValidation.sanitizeCredentials v = some r) :
    AuthValidation.sanitizeCredentials r.toJS = some r := by
  obtain ⟨he, hp⟩ := sanitize_output_shape v r h
  have hred : AuthValidation.sanitizeCredentials r.toJS =
      some ⟨jsToLower (jsTrim r.email),
            if jsFalsy r.password then .str "" else r.password⟩ := rfl
  have hA : jsToLower (jsTrim r.email) = r.email := by
    rcases he with he | ⟨s, hs⟩
    · rw [he]
      rfl
    · rw [hs, jsTrim_jsToLower_jsTrim, jsToLower_jsToLower]
  have hB : (if jsFalsy r.password then JSValue.str "" else r.password) = r.password := by
    rcases hp with hp | hp
    · rw [hp]
      rfl
    · rw [if_neg (by simp [hp])]
  rw [hred, hA, hB]

/-- Witness for C8: sanitizing a padded mixed-case email twice. -/
theorem claim_C8_witness :
    AuthValidation.sanitizeCredentials
      (SanitizedCredentials.toJS { email := "a@b.com", password := .str "password123" }) =
      some { email := "a@b.com", password := .str "password123" } :=
  claim_C8_sanitize_idempotent
    (.obj [("email", .str "  A@B.Com "), ("password", .str "password123")])
    { email := "a@b.com", password := .str "password123" }
    (by rfl)

/-- Claim C9: the authentication outcome is deterministic: it depends only
on the sanitized credentials, not on when the simulated database delay
resolves, so two invocations on the same input agree on success, message
and status code. -/
theorem claim_C9_authentication_deterministic (c : SanitizedCredentials) (t₁ t₂ : Nat) :
    (AuthService.authenticateUserAt c t₁).success = (AuthService.authenticateUserAt c t₂).success ∧
    (AuthService.authenticateUserAt c t₁).message = (AuthService.authenticateUserAt c t₂).message ∧
    (AuthService.authenticateUserAt c t₁).statusCode = (AuthService.authenticateUserAt c t₂).statusCode :=
  ⟨rfl, rfl, rfl⟩

/-- Claim C10: a truthy non-string password with no length property — here
the number `123` — produces no password error: `(123).length` is
`undefined`, the comparison `undefined < 6` is false, and the record passes
validation with an empty error list. -/
theorem claim_C10_numeric_password_passes :
    jsFalsy (.num 123) = false ∧
    lengthProp (.num 123) = .undefined ∧
    AuthValidation.validateLoginCredentials
      (.obj [("email", .str "test@example.com"), ("password", .num 123)]) = [] := by
  refine ⟨rfl, rfl, ?_⟩
  rfl

end Login
